import Mathlib

/-!
# Verification of the fiobank client (`fiobank.py`)

A shallow embedding of the fiobank repository's single source file in Lean 4.
Python dynamic values are modelled by the inductive type `PyVal`; Python
exceptions by `PyErr` (fallible code returns `Except PyErr _`); Python dicts by
association lists over `String` keys; wall-clock time by a rational number
passed explicitly; the network by an oracle function from URLs to responses.

Each definition is translated from the corresponding Python function and keeps
its source name where Lean allows it.
-/

set_option autoImplicit false

namespace Fiobank

/-- A Python `datetime.date`: plain year/month/day. -/
structure Date where
  year : Nat
  month : Nat
  day : Nat
deriving DecidableEq, Repr

/-- The Python exceptions the embedded code can raise.  `keyError` carries the
missing key, `httpError` the HTTP status (from `response.raise_for_status()`),
`throttlingError` models the repository's own `ThrottlingError` class.
Python `ValueError` (`valueError`) covers both the spec's FormatError (a date
string failing `strptime`) and its ValidationError (mutually exclusive
arguments to `last`). -/
inductive PyErr where
  | keyError (k : String)
  | typeError
  | valueError
  | attributeError
  | throttlingError
  | httpError (status : Nat)
deriving DecidableEq, Repr

/-- A Python runtime value as it occurs in this program: `None`, booleans,
numbers (ints and floats are modelled together as rationals), strings, dates,
datetimes, lists and string-keyed dicts. -/
inductive PyVal where
  | none
  | bool (b : Bool)
  | num (q : ℚ)
  | str (s : String)
  | date (d : Date)
  | datetime (d : Date) (hour minute second : Nat)
  | list (xs : List PyVal)
  | dict (kvs : List (String × PyVal))

/-- Python truthiness: `None`, `False`, zero, and empty strings/lists/dicts
are falsy; everything else (dates included) is truthy. -/
def truthy : PyVal → Bool
  | PyVal.none => false
  | PyVal.bool b => b
  | PyVal.num q => decide (q ≠ 0)
  | PyVal.str s => decide (s ≠ "")
  | PyVal.date _ => true
  | PyVal.datetime _ _ _ _ => true
  | PyVal.list xs => !xs.isEmpty
  | PyVal.dict kvs => !kvs.isEmpty

/-- First-match lookup in an association list (Python dicts keep keys unique,
and our insertion operation preserves that). -/
def aget {α : Type} : List (String × α) → String → Option α
  | [], _ => Option.none
  | (k, v) :: rest, key => if k = key then some v else aget rest key

/-- `d[k] = v` on a Python dict: replace the binding if the key is present,
append it otherwise (insertion order is preserved, as in Python). -/
def dictSet : List (String × PyVal) → String → PyVal → List (String × PyVal)
  | [], key, v => [(key, v)]
  | (k, w) :: rest, key, v =>
      if k = key then (key, v) :: rest else (k, w) :: dictSet rest key v

/-- `d.get(k)` with Python's `None` default. -/
def dictGetD (d : List (String × PyVal)) (k : String) : PyVal :=
  (aget d k).getD PyVal.none

/-- `d.setdefault(k, None)`: insert `None` only when the key is absent. -/
def setdefault (d : List (String × PyVal)) (k : String) : List (String × PyVal) :=
  match aget d k with
  | some _ => d
  | Option.none => d ++ [(k, PyVal.none)]

/-- `v[k]` subscripting of a Python value by a string key: `KeyError` when a
dict lacks the key, `TypeError` when the value is not a dict (as for
`None['k']`, `'s'['k']`, `[1]['k']`, ...). -/
def pyGetItem (v : PyVal) (k : String) : Except PyErr PyVal :=
  match v with
  | PyVal.dict kvs =>
      match aget kvs k with
      | some x => Except.ok x
      | Option.none => Except.error (PyErr.keyError k)
  | _ => Except.error PyErr.typeError

/-- A transaction or account-info record: a Python dict built by the parsers. -/
abbrev Record := List (String × PyVal)

/-- ASCII lower-casing, as `str.lower()` acts on the ASCII field codes used by
the schema tables. -/
def charLower (c : Char) : Char :=
  if 'A' ≤ c ∧ c ≤ 'Z' then Char.ofNat (c.toNat + 32) else c

/-- `s.lower()` (ASCII range; the raw field codes are ASCII). -/
def pyLower (s : String) : String :=
  String.mk (s.data.map charLower)

/-- Whitespace for `str.strip()`. -/
def isPySpace (c : Char) : Bool :=
  c = ' ' ∨ c = '\t' ∨ c = '\n' ∨ c = '\r' ∨ c = '\x0b' ∨ c = '\x0c'

/-- `s.strip()`: drop leading and trailing whitespace. -/
def pyStrip (s : String) : String :=
  String.mk (((s.data.dropWhile isPySpace).reverse.dropWhile isPySpace).reverse)

/-- `s[:n]` on a Python string. -/
def pyTake (s : String) (n : Nat) : String :=
  String.mk (s.data.take n)

/-- `s.split(c)` on a single-character separator: split at every occurrence,
keeping empty parts, exactly as Python's `str.split(sep)`. -/
def splitChar (sep : Char) : List Char → List (List Char)
  | [] => [[]]
  | c :: cs =>
      let r := splitChar sep cs
      if c = sep then [] :: r
      else
        match r with
        | h :: t => (c :: h) :: t
        | [] => [[c]]

/-- `s.split(' ')` as used on `specification`. -/
def pySplit (s : String) (sep : Char) : List String :=
  (splitChar sep s.data).map (fun cs => String.mk cs)

/-- Numeric value of an ASCII digit. -/
def digitVal (c : Char) : Nat := c.toNat - 48

/-- Natural number denoted by a digit string. -/
def natOfDigits (cs : List Char) : Nat :=
  cs.foldl (fun acc c => acc * 10 + digitVal c) 0

/-- Zero-padded two-digit rendering (for ISO dates). -/
def pad2 (n : Nat) : String := if n < 10 then "0" ++ toString n else toString n

/-- Zero-padded four-digit rendering (for ISO years). -/
def pad4 (n : Nat) : String :=
  if n < 10 then "000" ++ toString n
  else if n < 100 then "00" ++ toString n
  else if n < 1000 then "0" ++ toString n
  else toString n

/-- `str(date)`: ISO format `YYYY-MM-DD`. -/
def dateIso (d : Date) : String :=
  pad4 d.year ++ "-" ++ pad2 d.month ++ "-" ++ pad2 d.day

/-- Rendering of a Python number as a string.  The exact CPython float `repr`
(shortest round-trip binary form) is not reproducible over `ℚ`; this rendering
is exact on integers and otherwise abstract.  No claim inspects the string
form of a number. -/
def numStr (q : ℚ) : String :=
  if q.den = 1 then toString q.num
  else toString q.num ++ "/" ++ toString q.den

/-- `str(value)` for the value shapes reachable in this program: scalars are
rendered exactly (strings pass through, which is the only case any claim
touches).  The container cases stand for Python's `repr`-based rendering of
lists/dicts, which no modelled code path reaches with observable effect; they
are kept abstract (a fixed marker) rather than reproduced. -/
def pyStr : PyVal → String
  | PyVal.none => "None"
  | PyVal.bool true => "True"
  | PyVal.bool false => "False"
  | PyVal.num q => numStr q
  | PyVal.str s => s
  | PyVal.date d => dateIso d
  | PyVal.datetime d hh mm ss =>
      dateIso d ++ " " ++ pad2 hh ++ ":" ++ pad2 mm ++ ":" ++ pad2 ss
  | PyVal.list _ => "<list>"
  | PyVal.dict _ => "<dict>"

/-- Rational subtraction in a kernel-computable form (the library `Rat.sub` is
deliberately irreducible); `ratSub_eq` identifies it with `a - b`. -/
def ratSub (a b : ℚ) : ℚ :=
  mkRat (a.num * (b.den : ℤ) - b.num * (a.den : ℤ)) (a.den * b.den)

theorem ratSub_eq (a b : ℚ) : ratSub a b = a - b := (Rat.sub_def' a b).symm

/-! ## Value coercion (`coerce_date`, `sanitize_value` and the converters) -/

/-- Leap years, as `datetime.date` validates them. -/
def isLeap (y : Nat) : Bool :=
  (y % 4 = 0 && y % 100 ≠ 0) || y % 400 = 0

/-- Days in a month, as `datetime.date` validates them. -/
def daysInMonth (y m : Nat) : Nat :=
  if m = 2 then (if isLeap y then 29 else 28)
  else if m = 4 ∨ m = 6 ∨ m = 9 ∨ m = 11 then 30
  else 31

/-- The `%m` token of `strptime`: the regex `1[0-2]|0[1-9]|[1-9]`, greedy with
backtracking.  Since a successful two-digit alternative consumes a digit where
the following literal `-` would have to match, greedy matching without
backtracking is equivalent here. -/
def parseMonth : List Char → Option (Nat × List Char)
  | '1' :: c :: rest =>
      if '0' ≤ c ∧ c ≤ '2' then some (10 + digitVal c, rest) else some (1, c :: rest)
  | '0' :: c :: rest =>
      if '1' ≤ c ∧ c ≤ '9' then some (digitVal c, rest) else Option.none
  | c :: rest =>
      if '1' ≤ c ∧ c ≤ '9' then some (digitVal c, rest) else Option.none
  | [] => Option.none

/-- The `%d` token of `strptime`: the regex `3[01]|[12][0-9]|0[1-9]|[1-9]`.
As with the month, the two-digit alternatives consume a digit where the
subsequent end-of-input check would have to succeed, so greedy matching
without backtracking is equivalent. -/
def parseDay : List Char → Option (Nat × List Char)
  | '3' :: c :: rest =>
      if c = '0' ∨ c = '1' then some (30 + digitVal c, rest) else some (3, c :: rest)
  | c1 :: c2 :: rest =>
      if (c1 = '1' ∨ c1 = '2') ∧ c2.isDigit then
        some (digitVal c1 * 10 + digitVal c2, rest)
      else if c1 = '0' ∧ ('1' ≤ c2 ∧ c2 ≤ '9') then some (digitVal c2, rest)
      else if '1' ≤ c1 ∧ c1 ≤ '9' then some (digitVal c1, c2 :: rest)
      else Option.none
  | [c] => if '1' ≤ c ∧ c ≤ '9' then some (digitVal c, []) else Option.none
  | [] => Option.none

/-- `datetime.datetime.strptime(s, '%Y-%m-%d').date()` as a total function:
`%Y` is exactly four digits, the whole string must be consumed, and the
resulting date must be a valid `datetime.date` (year at least 1, day within
the month). -/
def strptimeYmd (s : String) : Option Date :=
  match s.data with
  | y1 :: y2 :: y3 :: y4 :: '-' :: rest =>
      if y1.isDigit ∧ y2.isDigit ∧ y3.isDigit ∧ y4.isDigit then
        match parseMonth rest with
        | some (m, '-' :: rest2) =>
            match parseDay rest2 with
            | some (d, []) =>
                let y := natOfDigits [y1, y2, y3, y4]
                if 1 ≤ y ∧ d ≤ daysInMonth y m then some ⟨y, m, d⟩ else Option.none
            | _ => Option.none
        | _ => Option.none
      else Option.none
  | _ => Option.none

/-- `coerce_date(value)` from the source: a `datetime` is truncated to its
date, a `date` is returned unchanged, and anything else is sliced to its
first 10 characters and parsed as `%Y-%m-%d` (`ValueError` — the spec's
FormatError — when the parse fails, `TypeError` when the value cannot be
sliced or parsed, e.g. a number). -/
def coerce_date : PyVal → Except PyErr Date
  | PyVal.datetime d _ _ _ => Except.ok d
  | PyVal.date d => Except.ok d
  | PyVal.str s =>
      match strptimeYmd (pyTake s 10) with
      | some d => Except.ok d
      | Option.none => Except.error PyErr.valueError
  | _ => Except.error PyErr.typeError

/-- `float(value)` for the value shapes it accepts here: numbers pass through,
booleans become 0/1, strings are parsed as decimal literals (optional sign,
digits, optional fractional part).  Exotic accepted forms (exponents,
`inf`/`nan`, leading dots) are not modelled; no reachable claim needs them. -/
def floatOfString (s : String) : Except PyErr ℚ :=
  let cs := (pyStrip s).data
  let (neg, cs) :=
    match cs with
    | '-' :: r => (true, r)
    | '+' :: r => (false, r)
    | r => (false, r)
  let ip := cs.takeWhile Char.isDigit
  let rest := cs.dropWhile Char.isDigit
  if ip.isEmpty then Except.error PyErr.valueError
  else
    match rest with
    | [] =>
        let n : Int := Int.ofNat (natOfDigits ip)
        Except.ok (mkRat (if neg then -n else n) 1)
    | '.' :: r =>
        let fp := r.takeWhile Char.isDigit
        let rest2 := r.dropWhile Char.isDigit
        if rest2.isEmpty then
          let den := 10 ^ fp.length
          let n : Int := Int.ofNat (natOfDigits ip * den + natOfDigits fp)
          Except.ok (mkRat (if neg then -n else n) den)
        else Except.error PyErr.valueError
    | _ => Except.error PyErr.valueError

/-- `float(value)` on a Python value. -/
def pyFloat : PyVal → Except PyErr PyVal
  | PyVal.num q => Except.ok (PyVal.num q)
  | PyVal.bool b => Except.ok (PyVal.num (if b then 1 else 0))
  | PyVal.str s => (floatOfString s).map PyVal.num
  | _ => Except.error PyErr.typeError

/-- The closed set of coercion functions appearing in the schema tables:
`str`, `float` and `coerce_date`. -/
inductive Conv where
  | toStr
  | toFloat
  | toDate
deriving DecidableEq, Repr

/-- Apply a schema coercion function to a raw value. -/
def applyConv : Conv → PyVal → Except PyErr PyVal
  | Conv.toStr, v => Except.ok (PyVal.str (pyStr v))
  | Conv.toFloat, v => pyFloat v
  | Conv.toDate, v => (coerce_date v).map PyVal.date

/-- `sanitize_value(value, convert)` from the source: a string is stripped and
an empty result replaced by `None`; then, when a converter is given and the
value is not `None`, the converter is applied. -/
def sanitize_value (value : PyVal) (convert : Option Conv) : Except PyErr PyVal :=
  let value :=
    match value with
    | PyVal.str s =>
        let t := pyStrip s
        if t = "" then PyVal.none else PyVal.str t
    | v => v
  match convert, value with
  | some _, PyVal.none => Except.ok PyVal.none
  | some c, v => applyConv c v
  | Option.none, v => Except.ok v

/-! ## Schema tables and the response parser -/

/-- `Account.transaction_schema`: raw column code → (field name, coercion). -/
def transaction_schema : List (String × String × Conv) :=
  [ ("column0", ("date", Conv.toDate)),
    ("column1", ("amount", Conv.toFloat)),
    ("column2", ("account_number", Conv.toStr)),
    ("column3", ("bank_code", Conv.toStr)),
    ("column4", ("constant_symbol", Conv.toStr)),
    ("column5", ("variable_symbol", Conv.toStr)),
    ("column6", ("specific_symbol", Conv.toStr)),
    ("column7", ("user_identification", Conv.toStr)),
    ("column8", ("type", Conv.toStr)),
    ("column9", ("executor", Conv.toStr)),
    ("column10", ("account_name", Conv.toStr)),
    ("column12", ("bank_name", Conv.toStr)),
    ("column14", ("currency", Conv.toStr)),
    ("column16", ("recipient_message", Conv.toStr)),
    ("column17", ("instruction_id", Conv.toStr)),
    ("column18", ("specification", Conv.toStr)),
    ("column22", ("transaction_id", Conv.toStr)),
    ("column25", ("comment", Conv.toStr)),
    ("column26", ("bic", Conv.toStr)),
    ("column27", ("reference", Conv.toStr)) ]

/-- `Account.info_schema`: raw info key (lower-cased) → (field name, coercion). -/
def info_schema : List (String × String × Conv) :=
  [ ("accountid", ("account_number", Conv.toStr)),
    ("bankid", ("bank_code", Conv.toStr)),
    ("currency", ("currency", Conv.toStr)),
    ("iban", ("iban", Conv.toStr)),
    ("bic", ("bic", Conv.toStr)),
    ("closingbalance", ("balance", Conv.toFloat)) ]

/-- `Account._amount_re.match(s)`: Python prefix matching (anchored at the
start, not at the end) of the regex `-?\d+(\.\d+)? [A-Z]{3}`.  The regex is
deterministic up to the optional fractional group, whose failure cannot be
repaired by backtracking (the following literal space can never match the
dot), so a greedy scan is equivalent.  `\d`/`[A-Z]` are taken as ASCII. -/
def amountMatch (s : String) : Bool :=
  let cs := s.data
  let cs := match cs with | '-' :: rest => rest | r => r
  let ds := cs.takeWhile Char.isDigit
  let cs := cs.dropWhile Char.isDigit
  if ds.isEmpty then false
  else
    let cs :=
      match cs with
      | '.' :: rest =>
          let fs := rest.takeWhile Char.isDigit
          if fs.isEmpty then '.' :: rest else rest.dropWhile Char.isDigit
      | r => r
    match cs with
    | ' ' :: c1 :: c2 :: c3 :: _ =>
        ('A' ≤ c1 ∧ c1 ≤ 'Z') ∧ ('A' ≤ c2 ∧ c2 ≤ 'Z') ∧ ('A' ≤ c3 ∧ c3 ≤ 'Z')
    | _ => false

/-- `Account._add_account_number_full(obj)` from the source: derive
`account_number_full` as `'{}/{}'.format(account_number, bank_code)` when both
parts are non-`None`, and `None` otherwise. -/
def _add_account_number_full (obj : Record) : Record :=
  let account_number := dictGetD obj "account_number"
  let bank_code := dictGetD obj "bank_code"
  let account_number_full :=
    match account_number, bank_code with
    | PyVal.none, _ => PyVal.none
    | _, PyVal.none => PyVal.none
    | a, b => PyVal.str (pyStr a ++ "/" ++ pyStr b)
  dictSet obj "account_number_full" account_number_full

/-- The per-column loop of `_parse_transactions`: falsy column data is
skipped; otherwise the column code is lower-cased and looked up in the schema
(`KeyError` when absent), the raw `column_data['value']` is sanitized and
coerced, and the semantic field is assigned. -/
def parseColumns : List (String × PyVal) → Record → Except PyErr Record
  | [], tr => Except.ok tr
  | (column_name, column_data) :: rest, tr =>
      if truthy column_data = false then parseColumns rest tr
      else
        match aget transaction_schema (pyLower column_name) with
        | Option.none => Except.error (PyErr.keyError (pyLower column_name))
        | some (field_name, convert) =>
            match pyGetItem column_data "value" with
            | Except.error e => Except.error e
            | Except.ok raw =>
                match sanitize_value raw (some convert) with
                | Except.error e => Except.error e
                | Except.ok value => parseColumns rest (dictSet tr field_name value)

/-- The `setdefault` loop of `_parse_transactions`: every schema field absent
from the entry is added with value `None`. -/
def setDefaults : List (String × String × Conv) → Record → Record
  | [], tr => tr
  | (_, (field_name, _)) :: rest, tr => setDefaults rest (setdefault tr field_name)

/-- The `specification` refinement of `_parse_transactions`: when the field is
non-`None` and `_amount_re.match` succeeds, split on single spaces and unpack
into exactly two parts (`ValueError` otherwise, as Python unpacking raises),
setting `original_amount` to the float of the first part and
`original_currency` to the second; otherwise set both to `None`.  A non-`None`
non-string value would make `re.match` raise `TypeError`. -/
def addOriginalFields (trans : Record) : Except PyErr Record :=
  match dictGetD trans "specification" with
  | PyVal.str s =>
      if amountMatch s then
        match pySplit s ' ' with
        | [amount, currency] =>
            match floatOfString amount with
            | Except.error e => Except.error e
            | Except.ok q =>
                Except.ok (dictSet (dictSet trans "original_amount" (PyVal.num q))
                  "original_currency" (PyVal.str currency))
        | _ => Except.error PyErr.valueError
      else
        Except.ok (dictSet (dictSet trans "original_amount" PyVal.none)
          "original_currency" PyVal.none)
  | PyVal.none =>
      Except.ok (dictSet (dictSet trans "original_amount" PyVal.none)
        "original_currency" PyVal.none)
  | _ => Except.error PyErr.typeError

/-- Parsing of one transaction entry: the body of the `for entry in entries`
loop of `_parse_transactions`.  A non-dict entry has no `.items()`
(`AttributeError`). -/
def parseEntry (entry : PyVal) : Except PyErr Record :=
  match entry with
  | PyVal.dict items =>
      match parseColumns items [] with
      | Except.error e => Except.error e
      | Except.ok t =>
          match addOriginalFields (setDefaults transaction_schema t) with
          | Except.error e => Except.error e
          | Except.ok t2 => Except.ok (_add_account_number_full t2)
  | _ => Except.error PyErr.attributeError

/-- The guarded lookup
`data['accountStatement']['transactionList']['transaction']` of
`_parse_transactions` (the expression inside its `try`). -/
def transChain (data : PyVal) : Except PyErr PyVal :=
  match pyGetItem data "accountStatement" with
  | Except.error e => Except.error e
  | Except.ok a =>
      match pyGetItem a "transactionList" with
      | Except.error e => Except.error e
      | Except.ok tl => pyGetItem tl "transaction"

/-- Python iteration over the shapes that can appear here: lists yield their
elements, dicts their keys, strings their characters; other values are not
iterable (`TypeError`). -/
def pyIter : PyVal → Except PyErr (List PyVal)
  | PyVal.list xs => Except.ok xs
  | PyVal.dict kvs => Except.ok (kvs.map (fun p => PyVal.str p.1))
  | PyVal.str s => Except.ok (s.data.map (fun c => PyVal.str (String.mk [c])))
  | _ => Except.error PyErr.typeError

/-- `Account._parse_transactions(data)` from the source.  Only a `TypeError`
from the nested lookup is caught (replacing the entries by `[]`); a `KeyError`
propagates.  The generator is modelled as the list of its records, an error
anywhere during iteration failing the whole run. -/
def _parse_transactions (data : PyVal) : Except PyErr (List Record) :=
  let entries : Except PyErr PyVal :=
    match transChain data with
    | Except.error PyErr.typeError => Except.ok (PyVal.list [])
    | r => r
  match entries with
  | Except.error e => Except.error e
  | Except.ok v =>
      match pyIter v with
      | Except.error e => Except.error e
      | Except.ok items => items.mapM parseEntry

/-- The per-key loop of `_get_account_info`: keys are lower-cased, keys absent
from `info_schema` are skipped, present keys are sanitized/coerced and stored
under their semantic name. -/
def infoFold : List (String × PyVal) → Record → Except PyErr Record
  | [], info => Except.ok info
  | (key, value) :: rest, info =>
      match aget info_schema (pyLower key) with
      | some (field_name, convert) =>
          match sanitize_value value (some convert) with
          | Except.error e => Except.error e
          | Except.ok v => infoFold rest (dictSet info field_name v)
      | Option.none => infoFold rest info

/-- `Account._get_account_info(data)` from the source: iterate over
`data['accountStatement']['info'].items()` through the info schema, then run
`_add_account_number_full`. -/
def _get_account_info (data : PyVal) : Except PyErr Record :=
  match pyGetItem data "accountStatement" with
  | Except.error e => Except.error e
  | Except.ok a =>
      match pyGetItem a "info" with
      | Except.error e => Except.error e
      | Except.ok (PyVal.dict items) =>
          match infoFold items [] with
          | Except.error e => Except.error e
          | Except.ok info => Except.ok (_add_account_number_full info)
      | Except.ok _ => Except.error PyErr.attributeError

/-! ## Request / cache / throttle layer -/

/-- The shared mutable class state of `Account`: the URL-keyed response cache
and the single last-request timestamp (`time.time()` is modelled as a rational
passed in explicitly; the initial timestamp is 0). -/
structure ReqState where
  cache : List (String × PyVal)
  last_request_timestamp : ℚ

/-- An HTTP response as `_request` observes it: the status code, the raw body
(`response.content`; only its emptiness is inspected) and the decoded JSON
body (`response.json()`, which raises when the body is not valid JSON). -/
structure Response where
  status_code : Nat
  content : String
  json : Except PyErr PyVal

/-- `requests.codes['conflict']`. -/
def conflictStatus : Nat := 409

/-- `Account.base_url`. -/
def base_url : String := "https://fioapi.fio.cz/v1/rest/"

/-- `Account.actions`: the fixed action → URL-template table. -/
def actions : List (String × String) :=
  [ ("periods", "periods/{token}/{from_date}/{to_date}/transactions.json"),
    ("by-id", "by-id/{token}/{year}/{number}/transactions.json"),
    ("last", "last/{token}/transactions.json"),
    ("set-last-id", "set-last-id/{token}/{from_id}/"),
    ("set-last-date", "set-last-date/{token}/{from_date}/") ]

/-- Opening and closing brace characters (written via their code points). -/
def lbrace : Char := Char.ofNat 123

def rbrace : Char := Char.ofNat 125

/-- `template.format(**subs)` restricted to what the URL templates use: each
brace-delimited placeholder is replaced by its named argument (`KeyError`
when the name is missing, as in Python); other characters are copied.  The
fuel argument only drives the recursion and exceeds the input length. -/
def fmtAux (subs : List (String × String)) : Nat → List Char → Except PyErr String
  | 0, _ => Except.error PyErr.valueError
  | _, [] => Except.ok ""
  | Nat.succ fuel, c :: cs =>
      if c = lbrace then
        let name := cs.takeWhile (fun d => d ≠ rbrace)
        let rest := cs.dropWhile (fun d => d ≠ rbrace)
        match rest with
        | [] => Except.error PyErr.valueError
        | _ :: tail =>
            match aget subs (String.mk name) with
            | some v => (fmtAux subs fuel tail).map (fun r => v ++ r)
            | Option.none => Except.error (PyErr.keyError (String.mk name))
      else (fmtAux subs fuel cs).map (fun r => String.mk [c] ++ r)

/-- `template.format(token=..., **params)`. -/
def formatTemplate (tpl : String) (subs : List (String × String)) : Except PyErr String :=
  fmtAux subs (tpl.data.length + 1) tpl.data

/-- The URL built by `_request`: `(self.base_url + self.actions[action])
.format(token=self.token, **params)`; `KeyError` on an unknown action name. -/
def urlOf (token action : String) (params : List (String × String)) : Except PyErr String :=
  match aget actions action with
  | Option.none => Except.error (PyErr.keyError action)
  | some template => formatTemplate (base_url ++ template) (("token", token) :: params)

/-- `Account._get_cached_response_json(url)` from the source: the cached
response for this exact URL, but only when less than 30 seconds have passed
since the process-wide last request timestamp; `None` otherwise. -/
def _get_cached_response_json (st : ReqState) (now : ℚ) (url : String) : PyVal :=
  if ratSub now st.last_request_timestamp < 30 then dictGetD st.cache url
  else PyVal.none

/-- The result of a `_request` call: the returned decoded document (or the
raised exception), the state after the call, and how many network calls were
performed (0 or 1). -/
structure ReqResult where
  result : Except PyErr PyVal
  state : ReqState
  networkCalls : Nat

/-- `Account._request(action, **params)` from the source.  `net` is the
network oracle (`requests.get`), `now` the current `time.time()` (the source
reads the clock twice, at the cache check and at the timestamp update; both
reads are modelled by the same instant).  A truthy cached response is
returned without any network call; a conflict status raises
`ThrottlingError`; any other non-success status raises an HTTP error
(`raise_for_status`); a non-empty body is decoded, cached under the URL and
returned after the timestamp is advanced; an empty body yields `None` without
touching cache or timestamp. -/
def _request (net : String → Response) (now : ℚ) (st : ReqState) (token : String)
    (action : String) (params : List (String × String)) : ReqResult :=
  match urlOf token action params with
  | Except.error e => ⟨Except.error e, st, 0⟩
  | Except.ok url =>
      let cached_response_json := _get_cached_response_json st now url
      if truthy cached_response_json then ⟨Except.ok cached_response_json, st, 0⟩
      else
        let response := net url
        if response.status_code = conflictStatus then
          ⟨Except.error PyErr.throttlingError, st, 1⟩
        else if 400 ≤ response.status_code then
          ⟨Except.error (PyErr.httpError response.status_code), st, 1⟩
        else if response.content ≠ "" then
          match response.json with
          | Except.error e => ⟨Except.error e, st, 1⟩
          | Except.ok body =>
              ⟨Except.ok body, ⟨dictSet st.cache url body, now⟩, 1⟩
        else ⟨Except.ok PyVal.none, st, 1⟩

/-! ## Account facade -/

/-- An `Account` instance: it owns the access token. -/
structure Account where
  token : String

/-- The convenience query object: `Account.__init__` sets
`self.transactions = Query(self)`, so a `Query` holds its account. -/
structure Query where
  account : Account

/-- `Account.transactions`: the query object created in `__init__`. -/
def Account.transactions (a : Account) : Query := ⟨a⟩

/-- `key * 2` for the key shapes Python's `*` accepts: numbers double,
strings and lists repeat twice; other operands raise `TypeError`. -/
def pyMulTwo : PyVal → Except PyErr PyVal
  | PyVal.num q => Except.ok (PyVal.num (mkRat (2 * q.num) q.den))
  | PyVal.bool b => Except.ok (PyVal.num (if b then mkRat 2 1 else mkRat 0 1))
  | PyVal.str s => Except.ok (PyVal.str (s ++ s))
  | PyVal.list xs => Except.ok (PyVal.list (xs ++ xs))
  | _ => Except.error PyErr.typeError

/-- `Query.__getitem__(self, key)` from the source: literally `return key * 2`. -/
def Query.getitem (_q : Query) (key : PyVal) : Except PyErr PyVal :=
  pyMulTwo key

/-- The result of a facade call that may perform several requests: the parsed
transactions (or the exception), the final state, and the total number of
network calls performed. -/
structure FacadeResult where
  result : Except PyErr (List Record)
  state : ReqState
  networkCalls : Nat

/-- `Account.last(from_id=None, from_date=None)` from the source: both
constraints truthy raises `ValueError` before anything else; a truthy
`from_id` first issues `set-last-id`, else a truthy `from_date` is coerced
and issues `set-last-date`; then `last` is requested and its document parsed.
All requests share the network oracle and (as an abstraction of the short
elapsed time between them) the same clock instant. -/
def Account.last (a : Account) (net : String → Response) (now : ℚ) (st : ReqState)
    (from_id : PyVal) (from_date : PyVal) : FacadeResult :=
  if truthy from_id && truthy from_date then ⟨Except.error PyErr.valueError, st, 0⟩
  else
    let step1 : ReqResult :=
      if truthy from_id then
        _request net now st a.token "set-last-id" [("from_id", pyStr from_id)]
      else if truthy from_date then
        match coerce_date from_date with
        | Except.error e => ⟨Except.error e, st, 0⟩
        | Except.ok d =>
            _request net now st a.token "set-last-date" [("from_date", dateIso d)]
      else ⟨Except.ok PyVal.none, st, 0⟩
    match step1 with
    | ⟨Except.error e, st1, n1⟩ => ⟨Except.error e, st1, n1⟩
    | ⟨Except.ok _, st1, n1⟩ =>
        match _request net now st1 a.token "last" [] with
        | ⟨Except.error e, st2, n2⟩ => ⟨Except.error e, st2, n1 + n2⟩
        | ⟨Except.ok data, st2, n2⟩ =>
            match _parse_transactions data with
            | Except.error e => ⟨Except.error e, st2, n1 + n2⟩
            | Except.ok ts => ⟨Except.ok ts, st2, n1 + n2⟩

/-! ## The `account_number_full` invariant -/

/-- The `account_number_full` invariant of §3 of the spec, as a predicate on a
finished record: the derived field is non-null exactly when both source
fields are, and string sources concatenate with a slash. -/
def accInv (t : Record) : Prop :=
  (dictGetD t "account_number_full" ≠ PyVal.none ↔
    dictGetD t "account_number" ≠ PyVal.none ∧ dictGetD t "bank_code" ≠ PyVal.none)
  ∧ (∀ a b : String, dictGetD t "account_number" = PyVal.str a →
      dictGetD t "bank_code" = PyVal.str b →
      dictGetD t "account_number_full" = PyVal.str (a ++ "/" ++ b))

/-! ## Concrete instances used by witnesses and counterexamples -/

/-- A transaction entry whose specification is an amount with currency. -/
def entrySpecUsd : PyVal :=
  PyVal.dict [("column18", PyVal.dict [("value", PyVal.str "123.45 USD")])]

/-- The record parsed from `entrySpecUsd`. -/
def recSpecUsd : Record :=
  match parseEntry entrySpecUsd with
  | Except.ok t => t
  | Except.error _ => []

/-- A transaction entry whose specification is free text. -/
def entryRefund : PyVal :=
  PyVal.dict [("column18", PyVal.dict [("value", PyVal.str "refund")])]

/-- The record parsed from `entryRefund`. -/
def recRefund : Record :=
  match parseEntry entryRefund with
  | Except.ok t => t
  | Except.error _ => []

/-- A transaction entry carrying account number and bank code columns. -/
def entryAcct : PyVal :=
  PyVal.dict [("column2", PyVal.dict [("value", PyVal.str "2400111111")]),
    ("column3", PyVal.dict [("value", PyVal.str "2010")])]

/-- The record parsed from `entryAcct`. -/
def recAcct : Record :=
  match parseEntry entryAcct with
  | Except.ok t => t
  | Except.error _ => []

/-- A raw statement document whose only transaction entry has a column code
outside the schema, with truthy data. -/
def docUnknownColumn : PyVal :=
  PyVal.dict [("accountStatement", PyVal.dict [("transactionList",
    PyVal.dict [("transaction", PyVal.list
      [PyVal.dict [("column99", PyVal.dict [("value", PyVal.str "x")])]])])])]

/-- A raw statement document whose transactionList dict lacks the
`transaction` key. -/
def docMissingTransaction : PyVal :=
  PyVal.dict [("accountStatement", PyVal.dict [("transactionList", PyVal.dict [])])]

/-- A raw statement document with a null transactionList (how the API reports
an empty statement). -/
def docNullTransactionList : PyVal :=
  PyVal.dict [("accountStatement", PyVal.dict [("transactionList", PyVal.none)])]

/-- A raw account-info document carrying two schema keys (in mixed case) and
one key outside the schema. -/
def docInfo : PyVal :=
  PyVal.dict [("accountStatement", PyVal.dict [("info",
    PyVal.dict [("accountId", PyVal.str "2400111111"), ("bankId", PyVal.str "2010"),
      ("unknownKey", PyVal.str "zzz")])])]

/-- The record parsed from `docInfo`. -/
def recInfo : Record :=
  match _get_account_info docInfo with
  | Except.ok r => r
  | Except.error _ => []

/-- The URL `_request` builds for the `last` action with token `testtoken`. -/
def urlLast : String := "https://fioapi.fio.cz/v1/rest/last/testtoken/transactions.json"

/-- The initial shared state: empty cache, timestamp 0. -/
def stInit : ReqState := ⟨[], 0⟩

/-- A JSON payload that is truthy (a non-empty object). -/
def payloadOk : PyVal := PyVal.dict [("accountStatement", PyVal.none)]

/-- A network oracle answering every URL with status 200 and `payloadOk`. -/
def netOk : String → Response := fun _ => ⟨200, "body", Except.ok payloadOk⟩

/-- A network oracle answering with status 200 and an EMPTY JSON object —
a successful call whose decoded payload is falsy. -/
def netEmptyObj : String → Response := fun _ => ⟨200, "\x7b\x7d", Except.ok (PyVal.dict [])⟩

/-- A network oracle answering every URL with the conflict status. -/
def net409 : String → Response := fun _ => ⟨409, "", Except.error PyErr.valueError⟩

/-- The state after a successful `last` request against `netOk` at time 100. -/
def stAfterOk : ReqState := ⟨[(urlLast, payloadOk)], 100⟩

/-- The state after a successful `last` request against `netEmptyObj` at
time 100. -/
def stAfterEmptyObj : ReqState := ⟨[(urlLast, PyVal.dict [])], 100⟩

/-! ## Association-list lemmas -/

theorem aget_dictSet_self (d : Record) (k : String) (v : PyVal) :
    aget (dictSet d k v) k = some v := by
  induction d with
  | nil => simp [dictSet, aget]
  | cons p rest ih =>
      obtain ⟨k', v'⟩ := p
      by_cases h : k' = k <;> simp [dictSet, aget, h, ih]

theorem aget_dictSet_ne (d : Record) (k : String) (v : PyVal) (kq : String) (h : k ≠ kq) :
    aget (dictSet d k v) kq = aget d kq := by
  induction d with
  | nil => simp [dictSet, aget, h]
  | cons p rest ih =>
      obtain ⟨k', v'⟩ := p
      by_cases hk : k' = k
      · subst hk
        simp [dictSet, aget, h]
      · simp [dictSet, aget, hk, ih]

theorem dictGetD_dictSet_self (d : Record) (k : String) (v : PyVal) :
    dictGetD (dictSet d k v) k = v := by
  simp [dictGetD, aget_dictSet_self]

theorem dictGetD_dictSet_ne (d : Record) (k : String) (v : PyVal) (kq : String) (h : k ≠ kq) :
    dictGetD (dictSet d k v) kq = dictGetD d kq := by
  simp [dictGetD, aget_dictSet_ne d k v kq h]

theorem aget_append {α : Type} (d₁ d₂ : List (String × α)) (k : String) :
    aget (d₁ ++ d₂) k = match aget d₁ k with
      | some v => some v
      | Option.none => aget d₂ k := by
  induction d₁ with
  | nil => simp [aget]
  | cons p rest ih =>
      obtain ⟨k', v'⟩ := p
      by_cases h : k' = k <;> simp [aget, h, ih]

theorem isSome_aget_setdefault_self (d : Record) (k : String) :
    (aget (setdefault d k) k).isSome = true := by
  unfold setdefault
  cases h : aget d k with
  | some v => simp [h]
  | none => rw [aget_append, h]; simp [aget]

theorem isSome_aget_setdefault_of (d : Record) (kset kq : String)
    (h : (aget d kq).isSome = true) :
    (aget (setdefault d kset) kq).isSome = true := by
  unfold setdefault
  cases hs : aget d kset with
  | some v => exact h
  | none =>
      rw [aget_append]
      cases hq : aget d kq with
      | some v => simp
      | none => rw [hq] at h; simp at h

theorem aget_setdefault_of_some (d : Record) (kset kq : String) (v : PyVal)
    (h : aget d kq = some v) : aget (setdefault d kset) kq = some v := by
  unfold setdefault
  cases hs : aget d kset with
  | some w => exact h
  | none =>
      rw [aget_append, h]

theorem aget_setdefault_none (d : Record) (kset kq : String)
    (hne : kset ≠ kq) (h : aget d kq = Option.none) :
    aget (setdefault d kset) kq = Option.none := by
  unfold setdefault
  cases hs : aget d kset with
  | some w => exact h
  | none =>
      rw [aget_append, h]
      simp [aget, hne]

theorem isSome_aget_dictSet_of (d : Record) (k : String) (v : PyVal) (kq : String)
    (h : (aget d kq).isSome = true) :
    (aget (dictSet d k v) kq).isSome = true := by
  by_cases hk : k = kq
  · subst hk
    simp [aget_dictSet_self]
  · rw [aget_dictSet_ne d k v kq hk]
    exact h

theorem isSome_aget_setDefaults_of (sch : List (String × String × Conv)) (t : Record)
    (kq : String) (h : (aget t kq).isSome = true) :
    (aget (setDefaults sch t) kq).isSome = true := by
  induction sch generalizing t with
  | nil => exact h
  | cons p rest ih =>
      obtain ⟨code, fname, conv⟩ := p
      exact ih (setdefault t fname) (isSome_aget_setdefault_of t fname kq h)

theorem aget_setDefaults_of_some (sch : List (String × String × Conv)) (t : Record)
    (kq : String) (v : PyVal) (h : aget t kq = some v) :
    aget (setDefaults sch t) kq = some v := by
  induction sch generalizing t with
  | nil => exact h
  | cons p rest ih =>
      obtain ⟨c, f0, cv⟩ := p
      exact ih (setdefault t f0) (aget_setdefault_of_some t f0 kq v h)

/-- A field absent from the record before the `setdefault` loop comes out of
the loop bound to `None`. -/
theorem aget_setDefaults_none_mem (sch : List (String × String × Conv)) (t : Record)
    (fname : String) (h : aget t fname = Option.none)
    (hmem : fname ∈ sch.map (fun x => x.2.1)) :
    aget (setDefaults sch t) fname = some PyVal.none := by
  induction sch generalizing t with
  | nil => simp at hmem
  | cons p rest ih =>
      obtain ⟨c, f0, cv⟩ := p
      simp only [List.map_cons, List.mem_cons] at hmem
      by_cases hf : f0 = fname
      · subst hf
        have h1 : aget (setdefault t f0) f0 = some PyVal.none := by
          unfold setdefault
          rw [h, aget_append, h]
          simp [aget]
        exact aget_setDefaults_of_some rest _ _ _ h1
      · cases hmem with
        | inl he => exact absurd he.symm hf
        | inr hm => exact ih (setdefault t f0) (aget_setdefault_none t f0 fname hf h) hm

theorem isSome_aget_setDefaults_mem (sch : List (String × String × Conv)) (t : Record)
    (kq : String) (h : kq ∈ sch.map (fun x => x.2.1)) :
    (aget (setDefaults sch t) kq).isSome = true := by
  induction sch generalizing t with
  | nil => simp at h
  | cons p rest ih =>
      obtain ⟨code, fname, conv⟩ := p
      simp only [List.map_cons, List.mem_cons] at h
      cases h with
      | inl h =>
          subst h
          exact isSome_aget_setDefaults_of rest (setdefault t kq) kq
            (isSome_aget_setdefault_self t kq)
      | inr h => exact ih (setdefault t fname) h

theorem addOriginalFields_preserves (t t2 : Record) (kq : String)
    (h : addOriginalFields t = Except.ok t2)
    (hk : (aget t kq).isSome = true) :
    (aget t2 kq).isSome = true := by
  unfold addOriginalFields at h
  split at h
  · split at h
    · split at h
      · split at h
        · exact absurd h (by simp)
        · rename_i q hq
          simp only [Except.ok.injEq] at h
          subst h
          exact isSome_aget_dictSet_of _ _ _ _ (isSome_aget_dictSet_of _ _ _ _ hk)
      · exact absurd h (by simp)
    · simp only [Except.ok.injEq] at h
      subst h
      exact isSome_aget_dictSet_of _ _ _ _ (isSome_aget_dictSet_of _ _ _ _ hk)
  · simp only [Except.ok.injEq] at h
    subst h
    exact isSome_aget_dictSet_of _ _ _ _ (isSome_aget_dictSet_of _ _ _ _ hk)
  · exact absurd h (by simp)

/-- A field set by neither `original_amount` nor `original_currency` passes
through the specification refinement with its binding unchanged. -/
theorem addOriginalFields_aget_ne (t t2 : Record) (kq : String)
    (h : addOriginalFields t = Except.ok t2)
    (h1 : kq ≠ "original_amount") (h2 : kq ≠ "original_currency") :
    aget t2 kq = aget t kq := by
  unfold addOriginalFields at h
  split at h
  · split at h
    · split at h
      · split at h
        · exact absurd h (by simp)
        · simp only [Except.ok.injEq] at h
          subst h
          rw [aget_dictSet_ne _ _ _ _ (Ne.symm h2), aget_dictSet_ne _ _ _ _ (Ne.symm h1)]
      · exact absurd h (by simp)
    · simp only [Except.ok.injEq] at h
      subst h
      rw [aget_dictSet_ne _ _ _ _ (Ne.symm h2), aget_dictSet_ne _ _ _ _ (Ne.symm h1)]
  · simp only [Except.ok.injEq] at h
    subst h
    rw [aget_dictSet_ne _ _ _ _ (Ne.symm h2), aget_dictSet_ne _ _ _ _ (Ne.symm h1)]
  · exact absurd h (by simp)

/-- No schema field name coincides with one of the three derived field
names. -/
theorem schema_fields_not_derived :
    ∀ x ∈ transaction_schema, x.2.1 ≠ "original_amount"
      ∧ x.2.1 ≠ "original_currency" ∧ x.2.1 ≠ "account_number_full" := by
  decide

/-- When no truthy column of the entry maps to `fname` through the schema,
the per-column loop leaves the binding of `fname` unchanged. -/
theorem parseColumns_not_set (items : List (String × PyVal)) (tr t0 : Record)
    (fname : String) (h : parseColumns items tr = Except.ok t0)
    (habs : ∀ (cname : String) (cdata : PyVal), (cname, cdata) ∈ items →
      truthy cdata = true → ∀ conv2 : Conv,
      aget transaction_schema (pyLower cname) ≠ some (fname, conv2)) :
    aget t0 fname = aget tr fname := by
  induction items generalizing tr with
  | nil =>
      simp only [parseColumns, Except.ok.injEq] at h
      subst h
      rfl
  | cons p rest ih =>
      obtain ⟨cname, cdata⟩ := p
      unfold parseColumns at h
      split at h
      · exact ih tr h (fun c d hm => habs c d (List.mem_cons_of_mem _ hm))
      · rename_i hnf
        have htr : truthy cdata = true := by
          cases hb : truthy cdata
          · exact absurd hb hnf
          · rfl
        split at h
        · exact absurd h (by simp)
        · rename_i f2 cv2 hlook
          split at h
          · exact absurd h (by simp)
          · rename_i raw hraw
            split at h
            · exact absurd h (by simp)
            · rename_i val hval
              have hne : f2 ≠ fname := by
                intro he
                subst he
                exact habs cname cdata (List.mem_cons_self _ _) htr cv2 hlook
              rw [ih (dictSet tr f2 val) h
                  (fun c d hm => habs c d (List.mem_cons_of_mem _ hm)),
                aget_dictSet_ne tr f2 val fname hne]

theorem isSome_aget_addAccountNumberFull_of (t : Record) (kq : String)
    (hk : (aget t kq).isSome = true) :
    (aget (_add_account_number_full t) kq).isSome = true := by
  unfold _add_account_number_full
  exact isSome_aget_dictSet_of _ _ _ _ hk

/-- `_add_account_number_full` establishes the invariant on any input record. -/
theorem accInv_addFull (obj : Record) : accInv (_add_account_number_full obj) := by
  unfold accInv _add_account_number_full
  rw [dictGetD_dictSet_self,
    dictGetD_dictSet_ne _ _ _ "account_number" (by decide),
    dictGetD_dictSet_ne _ _ _ "bank_code" (by decide)]
  constructor
  · cases h1 : dictGetD obj "account_number" <;> cases h2 : dictGetD obj "bank_code" <;> simp
  · intro a b ha hb
    rw [ha, hb]
    rfl

/-! ## Claim theorems C6–C10 -/

/-- C6: for every record produced by `_parse_transactions` or
`_get_account_info`, `account_number_full` is non-null iff both
`account_number` and `bank_code` are non-null, and string sources concatenate
with `/`; the underlying `_add_account_number_full` establishes this on all
input records, including when one or both source fields are null. -/
theorem c6_account_number_full :
    (∀ obj : Record, accInv (_add_account_number_full obj))
    ∧ (∀ (entry : PyVal) (t : Record), parseEntry entry = Except.ok t → accInv t)
    ∧ (∀ (data : PyVal) (r : Record), _get_account_info data = Except.ok r → accInv r) := by
  refine ⟨accInv_addFull, ?_, ?_⟩
  · intro entry t h
    cases entry <;> simp only [parseEntry] at h
    case dict items =>
      split at h
      · exact absurd h (by simp)
      · split at h
        · exact absurd h (by simp)
        · simp only [Except.ok.injEq] at h
          subst h
          exact accInv_addFull _
    all_goals exact absurd h (by simp)
  · intro data r h
    unfold _get_account_info at h
    split at h
    · exact absurd h (by simp)
    · split at h
      · exact absurd h (by simp)
      · split at h
        · exact absurd h (by simp)
        · simp only [Except.ok.injEq] at h
          subst h
          exact accInv_addFull _
      · exact absurd h (by simp)

/-- C6 witness: concrete records from both parsers satisfy the invariant and
carry the concatenated field. -/
theorem c6_account_number_full_witness :
    (parseEntry entryAcct = Except.ok recAcct ∧ accInv recAcct
      ∧ dictGetD recAcct "account_number_full" = PyVal.str "2400111111/2010")
    ∧ (_get_account_info docInfo = Except.ok recInfo ∧ accInv recInfo
      ∧ dictGetD recInfo "account_number_full" = PyVal.str "2400111111/2010") :=
  ⟨⟨rfl, c6_account_number_full.2.1 entryAcct recAcct rfl, rfl⟩,
    ⟨rfl, c6_account_number_full.2.2 docInfo recInfo rfl, rfl⟩⟩

/-- C7: `last(from_id=X, from_date=Y)` with both constraints set (truthy, as
the source tests `if from_id and from_date`) raises `ValueError` — the spec's
ValidationError — before any network call: no request is issued and the shared
cache/timestamp state is returned untouched. -/
theorem c7_last_both_constraints (a : Account) (net : String → Response) (now : ℚ)
    (st : ReqState) (from_id from_date : PyVal)
    (h1 : truthy from_id = true) (h2 : truthy from_date = true) :
    Account.last a net now st from_id from_date
      = ⟨Except.error PyErr.valueError, st, 0⟩ := by
  unfold Account.last
  simp [h1, h2]

/-- C7 witness: both constraints given concretely. -/
theorem c7_last_both_constraints_witness :
    truthy (PyVal.num (mkRat 42 1)) = true ∧ truthy (PyVal.str "2016-01-01") = true
    ∧ Account.last ⟨"testtoken"⟩ net409 0 stInit (PyVal.num (mkRat 42 1))
        (PyVal.str "2016-01-01") = ⟨Except.error PyErr.valueError, stInit, 0⟩ :=
  ⟨rfl, rfl, c7_last_both_constraints ⟨"testtoken"⟩ net409 0 stInit _ _ rfl rfl⟩

/-- C8: `coerce_date` truncates a datetime to its date, returns a date
unchanged, looks only at the first 10 characters of a string, maps
`"2016-10-23T00:00:00"` and `date(2016, 10, 23)` to the same date value, and
fails with `ValueError` (the spec's FormatError) when the first 10 characters
do not parse as `%Y-%m-%d`. -/
theorem c8_coerce_date :
    (∀ (d : Date) (hh mm ss : Nat),
      coerce_date (PyVal.datetime d hh mm ss) = Except.ok d)
    ∧ (∀ d : Date, coerce_date (PyVal.date d) = Except.ok d)
    ∧ (∀ s : String, coerce_date (PyVal.str s) = coerce_date (PyVal.str (pyTake s 10)))
    ∧ (coerce_date (PyVal.str "2016-10-23T00:00:00") = Except.ok ⟨2016, 10, 23⟩
      ∧ coerce_date (PyVal.date ⟨2016, 10, 23⟩) = Except.ok ⟨2016, 10, 23⟩)
    ∧ (∀ s : String, strptimeYmd (pyTake s 10) = Option.none →
        coerce_date (PyVal.str s) = Except.error PyErr.valueError) := by
  refine ⟨fun d hh mm ss => rfl, fun d => rfl, ?_, ⟨rfl, rfl⟩, ?_⟩
  · intro s
    simp [coerce_date, pyTake, List.take_take]
  · intro s h
    simp [coerce_date, h]

/-- C8 witness: the universally quantified clauses at concrete inputs. -/
theorem c8_coerce_date_witness :
    coerce_date (PyVal.datetime ⟨2016, 10, 23⟩ 7 30 15) = Except.ok ⟨2016, 10, 23⟩
    ∧ coerce_date (PyVal.date ⟨2016, 10, 23⟩) = Except.ok ⟨2016, 10, 23⟩
    ∧ coerce_date (PyVal.str "2016-10-23T00:00:00")
        = coerce_date (PyVal.str (pyTake "2016-10-23T00:00:00" 10))
    ∧ (strptimeYmd (pyTake "not-a-date" 10) = Option.none
      ∧ coerce_date (PyVal.str "not-a-date") = Except.error PyErr.valueError) :=
  ⟨c8_coerce_date.1 ⟨2016, 10, 23⟩ 7 30 15, c8_coerce_date.2.1 ⟨2016, 10, 23⟩,
    c8_coerce_date.2.2.1 "2016-10-23T00:00:00",
    rfl, c8_coerce_date.2.2.2.2 "not-a-date" rfl⟩

/-- C9: `_request` on an action name outside the fixed table fails with
`KeyError` on the actions dict — the spec's ConfigurationError — performing no
network call and leaving the state untouched. -/
theorem c9_unknown_action (net : String → Response) (now : ℚ) (st : ReqState)
    (token action : String) (params : List (String × String))
    (h : action ∉ ["periods", "by-id", "last", "set-last-id", "set-last-date"]) :
    _request net now st token action params
      = ⟨Except.error (PyErr.keyError action), st, 0⟩ := by
  simp only [List.mem_cons, List.not_mem_nil, or_false, not_or] at h
  obtain ⟨h1, h2, h3, h4, h5⟩ := h
  simp [_request, urlOf, actions, aget,
    Ne.symm h1, Ne.symm h2, Ne.symm h3, Ne.symm h4, Ne.symm h5]

/-- C9 witness: a concrete unknown action name. -/
theorem c9_unknown_action_witness :
    "foo" ∉ ["periods", "by-id", "last", "set-last-id", "set-last-date"]
    ∧ _request net409 0 stInit "testtoken" "foo" []
        = ⟨Except.error (PyErr.keyError "foo"), stInit, 0⟩ :=
  ⟨by decide, c9_unknown_action net409 0 stInit "testtoken" "foo" [] (by decide)⟩

/-- Doubling a rational via `mkRat` agrees with multiplication by two. -/
theorem mkRat_two_mul (q : ℚ) : mkRat (2 * q.num) q.den = 2 * q := by
  rw [Rat.mkRat_eq_div]
  push_cast
  rw [mul_div_assoc, Rat.num_div_den]

/-- C10 (implicit): subscripting the convenience query object returns the key
doubled (`key * 2`: twice the number, or the string repeated twice) and never
consults account or transaction data (the result is the same for any two
accounts). -/
theorem c10_query_getitem :
    (∀ (a : Account) (key : PyVal),
      Query.getitem (Account.transactions a) key = pyMulTwo key)
    ∧ (∀ (a a' : Account) (key : PyVal),
      Query.getitem (Account.transactions a) key
        = Query.getitem (Account.transactions a') key)
    ∧ (∀ (a : Account) (q : ℚ),
      Query.getitem (Account.transactions a) (PyVal.num q)
        = Except.ok (PyVal.num (2 * q)))
    ∧ (∀ (a : Account) (s : String),
      Query.getitem (Account.transactions a) (PyVal.str s)
        = Except.ok (PyVal.str (s ++ s))) := by
  refine ⟨fun a key => rfl, fun a a' key => rfl, ?_, fun a s => rfl⟩
  intro a q
  simp [Query.getitem, pyMulTwo, mkRat_two_mul]

/-! ## Claim theorems C1–C3 -/

/-- C1: in every record produced by `_parse_transactions`, the derived fields
`original_amount`/`original_currency` are both non-null exactly when the
`specification` field is a string matched by `_amount_re` (Python `re.match`:
anchored at the start), and then they come from splitting the specification on
spaces: `original_amount` is the float of the first part and
`original_currency` is the second. -/
theorem c1_original_amount_currency (entry : PyVal) (t : Record)
    (h : parseEntry entry = Except.ok t) :
    ((dictGetD t "original_amount" ≠ PyVal.none
        ∧ dictGetD t "original_currency" ≠ PyVal.none)
      ↔ ∃ s : String, dictGetD t "specification" = PyVal.str s ∧ amountMatch s = true)
    ∧ (∀ s : String, dictGetD t "specification" = PyVal.str s → amountMatch s = true →
        ∃ (q : ℚ) (a c : String), pySplit s ' ' = [a, c]
          ∧ floatOfString a = Except.ok q
          ∧ dictGetD t "original_amount" = PyVal.num q
          ∧ dictGetD t "original_currency" = PyVal.str c) := by
  cases entry <;> simp only [parseEntry] at h
  case dict items =>
    split at h
    · exact absurd h (by simp)
    · rename_i t0 hpc
      split at h
      · exact absurd h (by simp)
      · rename_i t2 hao
        simp only [Except.ok.injEq] at h
        subst h
        have hoa : dictGetD (_add_account_number_full t2) "original_amount"
            = dictGetD t2 "original_amount" := by
          unfold _add_account_number_full
          exact dictGetD_dictSet_ne _ _ _ _ (by decide)
        have hoc : dictGetD (_add_account_number_full t2) "original_currency"
            = dictGetD t2 "original_currency" := by
          unfold _add_account_number_full
          exact dictGetD_dictSet_ne _ _ _ _ (by decide)
        have hsp : dictGetD (_add_account_number_full t2) "specification"
            = dictGetD t2 "specification" := by
          unfold _add_account_number_full
          exact dictGetD_dictSet_ne _ _ _ _ (by decide)
        rw [hoa, hoc, hsp]
        unfold addOriginalFields at hao
        split at hao
        · rename_i s heq
          split at hao
          · rename_i hmatch
            split at hao
            · rename_i a c hsplit
              split at hao
              · exact absurd hao (by simp)
              · rename_i q hfloat
                simp only [Except.ok.injEq] at hao
                subst hao
                have v_oa : dictGetD (dictSet (dictSet (setDefaults transaction_schema t0)
                    "original_amount" (PyVal.num q)) "original_currency" (PyVal.str c))
                    "original_amount" = PyVal.num q := by
                  rw [dictGetD_dictSet_ne _ _ _ _ (by decide), dictGetD_dictSet_self]
                have v_oc : dictGetD (dictSet (dictSet (setDefaults transaction_schema t0)
                    "original_amount" (PyVal.num q)) "original_currency" (PyVal.str c))
                    "original_currency" = PyVal.str c := dictGetD_dictSet_self _ _ _
                have v_sp : dictGetD (dictSet (dictSet (setDefaults transaction_schema t0)
                    "original_amount" (PyVal.num q)) "original_currency" (PyVal.str c))
                    "specification" = PyVal.str s := by
                  rw [dictGetD_dictSet_ne _ _ _ _ (by decide),
                    dictGetD_dictSet_ne _ _ _ _ (by decide)]
                  exact heq
                rw [v_oa, v_oc, v_sp]
                constructor
                · constructor
                  · intro _
                    exact ⟨s, rfl, hmatch⟩
                  · intro _
                    exact ⟨by simp, by simp⟩
                · intro s' hs' _
                  injection hs' with h'
                  subst h'
                  exact ⟨q, a, c, hsplit, hfloat, rfl, rfl⟩
            · exact absurd hao (by simp)
          · rename_i hnm
            simp only [Except.ok.injEq] at hao
            subst hao
            have v_oa : dictGetD (dictSet (dictSet (setDefaults transaction_schema t0)
                "original_amount" PyVal.none) "original_currency" PyVal.none)
                "original_amount" = PyVal.none := by
              rw [dictGetD_dictSet_ne _ _ _ _ (by decide), dictGetD_dictSet_self]
            have v_oc : dictGetD (dictSet (dictSet (setDefaults transaction_schema t0)
                "original_amount" PyVal.none) "original_currency" PyVal.none)
                "original_currency" = PyVal.none := dictGetD_dictSet_self _ _ _
            have v_sp : dictGetD (dictSet (dictSet (setDefaults transaction_schema t0)
                "original_amount" PyVal.none) "original_currency" PyVal.none)
                "specification" = PyVal.str s := by
              rw [dictGetD_dictSet_ne _ _ _ _ (by decide),
                dictGetD_dictSet_ne _ _ _ _ (by decide)]
              exact heq
            rw [v_oa, v_oc, v_sp]
            constructor
            · constructor
              · rintro ⟨hl, -⟩
                exact absurd rfl hl
              · rintro ⟨s', hs', hm'⟩
                injection hs' with h'
                subst h'
                exact absurd hm' hnm
            · intro s' hs' hm'
              injection hs' with h'
              subst h'
              exact absurd hm' hnm
        · rename_i heq
          simp only [Except.ok.injEq] at hao
          subst hao
          have v_oa : dictGetD (dictSet (dictSet (setDefaults transaction_schema t0)
              "original_amount" PyVal.none) "original_currency" PyVal.none)
              "original_amount" = PyVal.none := by
            rw [dictGetD_dictSet_ne _ _ _ _ (by decide), dictGetD_dictSet_self]
          have v_sp : dictGetD (dictSet (dictSet (setDefaults transaction_schema t0)
              "original_amount" PyVal.none) "original_currency" PyVal.none)
              "specification" = dictGetD (setDefaults transaction_schema t0)
              "specification" := by
            rw [dictGetD_dictSet_ne _ _ _ _ (by decide),
              dictGetD_dictSet_ne _ _ _ _ (by decide)]
          rw [v_oa, v_sp, heq]
          constructor
          · constructor
            · rintro ⟨hl, -⟩
              exact absurd rfl hl
            · rintro ⟨s', hs', -⟩
              exact PyVal.noConfusion hs'
          · intro s' hs'
            exact absurd hs' (by simp)
        · exact absurd hao (by simp)
  all_goals exact absurd h (by simp)

/-- C2 counterexample: an entry whose only column code is outside the schema
(with truthy data) makes `_parse_transactions` raise `KeyError` instead of
silently ignoring the column, refuting the claim as stated. -/
theorem c2_counterexample :
    _parse_transactions docUnknownColumn = Except.error (PyErr.keyError "column99") := by
  rfl

/-- C2 (amended): parsing is schema-complete — every schema field name is
present in every successfully parsed transaction record, and a schema field
to which no truthy column of the raw entry maps comes out bound to null —
and unknown raw keys are silently ignored by `_get_account_info`; but in
`_parse_transactions` an unknown column with truthy data raises `KeyError`
(only falsy unknown columns are skipped). -/
theorem c2_schema_complete_amended :
    (∀ (entry : PyVal) (t : Record), parseEntry entry = Except.ok t →
      ∀ (code fname : String) (conv : Conv),
        (code, (fname, conv)) ∈ transaction_schema → (aget t fname).isSome = true)
    ∧ (∀ (items : List (String × PyVal)) (t : Record) (code fname : String) (conv : Conv),
        parseEntry (PyVal.dict items) = Except.ok t →
        (code, (fname, conv)) ∈ transaction_schema →
        (∀ (cname : String) (cdata : PyVal), (cname, cdata) ∈ items →
          truthy cdata = true → ∀ conv2 : Conv,
          aget transaction_schema (pyLower cname) ≠ some (fname, conv2)) →
        dictGetD t fname = PyVal.none)
    ∧ (∀ (key : String) (value : PyVal) (rest : List (String × PyVal)) (info : Record),
        aget info_schema (pyLower key) = Option.none →
        infoFold ((key, value) :: rest) info = infoFold rest info)
    ∧ (∀ (cname : String) (cdata : PyVal) (rest : List (String × PyVal)) (tr : Record),
        truthy cdata = true → aget transaction_schema (pyLower cname) = Option.none →
        parseColumns ((cname, cdata) :: rest) tr
          = Except.error (PyErr.keyError (pyLower cname))) := by
  refine ⟨?_, ?_, ?_, ?_⟩
  · intro entry t h code fname conv hmem
    cases entry <;> simp only [parseEntry] at h
    case dict items =>
      split at h
      · exact absurd h (by simp)
      · rename_i t0 hpc
        split at h
        · exact absurd h (by simp)
        · rename_i t2 hao
          simp only [Except.ok.injEq] at h
          subst h
          have hf : fname ∈ transaction_schema.map (fun x => x.2.1) :=
            List.mem_map_of_mem (fun x => x.2.1) hmem
          exact isSome_aget_addAccountNumberFull_of _ _
            (addOriginalFields_preserves _ _ _ hao
              (isSome_aget_setDefaults_mem transaction_schema t0 fname hf))
    all_goals exact absurd h (by simp)
  · intro items t code fname conv h hmem habs
    simp only [parseEntry] at h
    split at h
    · exact absurd h (by simp)
    · rename_i t0 hpc
      split at h
      · exact absurd h (by simp)
      · rename_i t2 hao
        simp only [Except.ok.injEq] at h
        subst h
        have hd := schema_fields_not_derived _ hmem
        have h0 : aget t0 fname = Option.none := by
          rw [parseColumns_not_set items [] t0 fname hpc habs]
          rfl
        have h1 : aget (setDefaults transaction_schema t0) fname = some PyVal.none :=
          aget_setDefaults_none_mem transaction_schema t0 fname h0
            (List.mem_map_of_mem (fun x => x.2.1) hmem)
        have h2 : aget t2 fname = some PyVal.none := by
          rw [addOriginalFields_aget_ne _ _ _ hao hd.1 hd.2.1]
          exact h1
        unfold _add_account_number_full
        rw [dictGetD_dictSet_ne _ _ _ _ (Ne.symm hd.2.2)]
        simp [dictGetD, h2]
  · intro key value rest info h
    simp [infoFold, h]
  · intro cname cdata rest tr h1 h2
    simp [parseColumns, h1, h2]

/-- C2 witness: the schema-complete clause at a concrete entry and field, the
null-default clause at the same entry (its only column is `column18`, so the
absent `amount` field comes out null), the info-skip clause at a concrete
unknown key, and the transaction `KeyError` clause at a concrete unknown
column. -/
theorem c2_schema_complete_witness :
    (parseEntry entrySpecUsd = Except.ok recSpecUsd
      ∧ ("column1", ("amount", Conv.toFloat)) ∈ transaction_schema
      ∧ (aget recSpecUsd "amount").isSome = true)
    ∧ (parseEntry (PyVal.dict [("column18", PyVal.dict [("value", PyVal.str "123.45 USD")])])
        = Except.ok recSpecUsd
      ∧ (∀ (cname : String) (cdata : PyVal),
          (cname, cdata) ∈ [("column18", PyVal.dict [("value", PyVal.str "123.45 USD")])] →
          truthy cdata = true → ∀ conv2 : Conv,
          aget transaction_schema (pyLower cname) ≠ some ("amount", conv2))
      ∧ dictGetD recSpecUsd "amount" = PyVal.none)
    ∧ (aget info_schema (pyLower "unknownKey") = Option.none
      ∧ infoFold [("unknownKey", PyVal.str "zzz")] [] = infoFold [] [])
    ∧ (truthy (PyVal.dict [("value", PyVal.str "x")]) = true
      ∧ aget transaction_schema (pyLower "column99") = Option.none
      ∧ parseColumns [("column99", PyVal.dict [("value", PyVal.str "x")])] []
          = Except.error (PyErr.keyError (pyLower "column99"))) := by
  have habs : ∀ (cname : String) (cdata : PyVal),
      (cname, cdata) ∈ [("column18", PyVal.dict [("value", PyVal.str "123.45 USD")])] →
      truthy cdata = true → ∀ conv2 : Conv,
      aget transaction_schema (pyLower cname) ≠ some ("amount", conv2) := by
    intro cname cdata hmem htr conv2 hcontra
    simp only [List.mem_singleton, Prod.mk.injEq] at hmem
    obtain ⟨rfl, rfl⟩ := hmem
    rw [show aget transaction_schema (pyLower "column18")
        = some ("specification", Conv.toStr) from rfl] at hcontra
    simp at hcontra
  exact ⟨⟨rfl, by decide, c2_schema_complete_amended.1 entrySpecUsd recSpecUsd rfl
      "column1" "amount" Conv.toFloat (by decide)⟩,
    ⟨rfl, habs, c2_schema_complete_amended.2.1
      [("column18", PyVal.dict [("value", PyVal.str "123.45 USD")])] recSpecUsd
      "column1" "amount" Conv.toFloat rfl (by decide) habs⟩,
    ⟨rfl, c2_schema_complete_amended.2.2.1 "unknownKey" (PyVal.str "zzz") [] [] rfl⟩,
    ⟨rfl, rfl, c2_schema_complete_amended.2.2.2 "column99"
      (PyVal.dict [("value", PyVal.str "x")]) [] [] rfl rfl⟩⟩

/-- C3 counterexample: a statement response whose transactionList dict has no
`transaction` key makes `_parse_transactions` raise `KeyError` (only
`TypeError` is caught), refuting the claim that every absent nested path
parses to the empty sequence. -/
theorem c3_counterexample :
    _parse_transactions docMissingTransaction
      = Except.error (PyErr.keyError "transaction") := by
  rfl

/-- C3 (amended): when the nested lookup
`data['accountStatement']['transactionList']['transaction']` raises
`TypeError` (a null or otherwise non-subscriptable value along the path —
including a null document or a null transactionList), `_parse_transactions`
yields the empty sequence; but a *missing key* raises `KeyError`, which
propagates. -/
theorem c3_empty_on_typeerror_amended :
    (∀ data : PyVal, transChain data = Except.error PyErr.typeError →
      _parse_transactions data = Except.ok [])
    ∧ _parse_transactions PyVal.none = Except.ok []
    ∧ _parse_transactions docNullTransactionList = Except.ok []
    ∧ (∀ kvs : List (String × PyVal), aget kvs "transaction" = Option.none →
        _parse_transactions (PyVal.dict [("accountStatement",
          PyVal.dict [("transactionList", PyVal.dict kvs)])])
          = Except.error (PyErr.keyError "transaction")) := by
  refine ⟨?_, rfl, rfl, ?_⟩
  · intro data h
    unfold _parse_transactions
    rw [h]
    rfl
  · intro kvs h
    have hchain : transChain (PyVal.dict [("accountStatement",
        PyVal.dict [("transactionList", PyVal.dict kvs)])])
        = Except.error (PyErr.keyError "transaction") := by
      simp [transChain, pyGetItem, aget, h]
    unfold _parse_transactions
    rw [hchain]

/-- C3 witness: the TypeError clause at a concrete null document and the
missing-key clause at a concrete transactionList. -/
theorem c3_empty_on_typeerror_witness :
    (transChain PyVal.none = Except.error PyErr.typeError
      ∧ _parse_transactions PyVal.none = Except.ok [])
    ∧ (aget [("otherKey", PyVal.none)] "transaction" = Option.none
      ∧ _parse_transactions (PyVal.dict [("accountStatement",
          PyVal.dict [("transactionList", PyVal.dict [("otherKey", PyVal.none)])])])
          = Except.error (PyErr.keyError "transaction")) :=
  ⟨⟨rfl, c3_empty_on_typeerror_amended.1 PyVal.none rfl⟩,
    ⟨rfl, c3_empty_on_typeerror_amended.2.2.2 [("otherKey", PyVal.none)] rfl⟩⟩

/-- C1 witness: the spec's own examples.  `"123.45 USD"` gives
`original_amount == 123.45` (the rational `2469/20`) and
`original_currency == "USD"`; `"refund"` gives null for both; an entry with
no specification column gives null for both. -/
theorem c1_original_amount_currency_witness :
    parseEntry entrySpecUsd = Except.ok recSpecUsd
    ∧ (dictGetD recSpecUsd "specification" = PyVal.str "123.45 USD"
      ∧ dictGetD recSpecUsd "original_amount" = PyVal.num (mkRat 2469 20)
      ∧ dictGetD recSpecUsd "original_currency" = PyVal.str "USD")
    ∧ ((dictGetD recSpecUsd "original_amount" ≠ PyVal.none
        ∧ dictGetD recSpecUsd "original_currency" ≠ PyVal.none)
      ↔ ∃ s : String, dictGetD recSpecUsd "specification" = PyVal.str s
          ∧ amountMatch s = true)
    ∧ (parseEntry entryRefund = Except.ok recRefund
      ∧ dictGetD recRefund "original_amount" = PyVal.none
      ∧ dictGetD recRefund "original_currency" = PyVal.none
      ∧ dictGetD recAcct "original_amount" = PyVal.none
      ∧ dictGetD recAcct "original_currency" = PyVal.none) :=
  ⟨rfl, ⟨rfl, rfl, rfl⟩,
    (c1_original_amount_currency entrySpecUsd recSpecUsd rfl).1,
    ⟨rfl, rfl, rfl, rfl, rfl⟩⟩

/-! ## Claim theorems C4–C5 -/

/-- When a `_request` returns a truthy document, the returned document sits in
the cache of the resulting state under the request URL (whether it came from
the cache or from a fresh network call). -/
theorem request_ok_cache (net : String → Response) (now : ℚ) (st : ReqState)
    (token action : String) (params : List (String × String)) (url : String)
    (j : PyVal) (st' : ReqState) (n : Nat)
    (hurl : urlOf token action params = Except.ok url)
    (h : _request net now st token action params = ⟨Except.ok j, st', n⟩)
    (ht : truthy j = true) :
    aget st'.cache url = some j := by
  unfold _request at h
  rw [hurl] at h
  dsimp only at h
  split at h
  · rename_i hc
    simp only [ReqResult.mk.injEq, Except.ok.injEq] at h
    obtain ⟨h1, h2, -⟩ := h
    subst h2
    rw [← h1]
    unfold _get_cached_response_json at hc ⊢
    split at hc
    · rename_i hlt
      rw [if_pos hlt]
      cases hq : aget st.cache url with
      | some v => simp [dictGetD, hq]
      | none => rw [dictGetD, hq] at hc; simp [truthy] at hc
    · simp [truthy] at hc
  · split at h
    · exact absurd h (by simp)
    · split at h
      · exact absurd h (by simp)
      · split at h
        · split at h
          · exact absurd h (by simp)
          · rename_i body hjson
            simp only [ReqResult.mk.injEq, Except.ok.injEq] at h
            obtain ⟨h1, h2, -⟩ := h
            subst h1
            rw [← h2]
            simpa using aget_dictSet_self st.cache url body
        · simp only [ReqResult.mk.injEq, Except.ok.injEq] at h
          obtain ⟨h1, -, -⟩ := h
          subst h1
          simp [truthy] at ht

/-- C4 counterexample: a successful call whose decoded payload is the EMPTY
JSON object populates the cache, yet a second identical request 10 seconds
later still performs a network call (the source tests the cached value for
truthiness, and an empty dict is falsy), refuting the claim that every pair
of identical requests within 30 seconds makes exactly one network call. -/
theorem c4_counterexample :
    _request netEmptyObj 100 stInit "testtoken" "last" []
      = ⟨Except.ok (PyVal.dict []), stAfterEmptyObj, 1⟩
    ∧ ((110 : ℚ) - stAfterEmptyObj.last_request_timestamp < 30)
    ∧ (_request netEmptyObj 110 stAfterEmptyObj "testtoken" "last" []).networkCalls = 1 :=
  ⟨rfl, by norm_num [stAfterEmptyObj], rfl⟩

/-- C4 (amended): after a `_request` for a given action/params returns a
*truthy* payload, a second `_request` for the same action and params within
30 seconds of the recorded timestamp returns the identical payload with no
network call and unchanged state; and a request made more than 30 seconds
after the recorded timestamp performs a network call.  (The truthiness
proviso is forced by the counterexample: falsy payloads such as `{}` are
re-fetched.) -/
theorem c4_cache_window (net : String → Response) (now1 now2 : ℚ) (st0 : ReqState)
    (token action : String) (params : List (String × String)) (url : String)
    (j : PyVal) (st1 : ReqState) (n : Nat)
    (hurl : urlOf token action params = Except.ok url)
    (h1 : _request net now1 st0 token action params = ⟨Except.ok j, st1, n⟩)
    (ht : truthy j = true) :
    (now2 - st1.last_request_timestamp < 30 →
      _request net now2 st1 token action params = ⟨Except.ok j, st1, 0⟩)
    ∧ (30 < now2 - st1.last_request_timestamp →
      (_request net now2 st1 token action params).networkCalls = 1) := by
  have hcache : aget st1.cache url = some j :=
    request_ok_cache net now1 st0 token action params url j st1 n hurl h1 ht
  constructor
  · intro hfresh
    have hc : _get_cached_response_json st1 now2 url = j := by
      unfold _get_cached_response_json
      rw [if_pos (by rw [ratSub_eq]; exact hfresh)]
      simp [dictGetD, hcache]
    unfold _request
    rw [hurl]
    dsimp only
    rw [hc, ht]
    rfl
  · intro hstale
    have hc : _get_cached_response_json st1 now2 url = PyVal.none := by
      unfold _get_cached_response_json
      rw [if_neg (by rw [ratSub_eq]; exact not_lt.mpr (le_of_lt hstale))]
    unfold _request
    rw [hurl]
    dsimp only
    rw [hc]
    simp only [truthy, Bool.false_eq_true, if_false]
    split
    · rfl
    · split
      · rfl
      · split
        · split <;> rfl
        · rfl

/-- C4 witness: against a network oracle returning a truthy payload, the
first call at time 100 performs one network call; a second identical call at
time 110 (within 30 seconds) returns the identical payload, touches nothing
and performs no network call; a call at time 131 (more than 30 seconds later)
performs a network call again. -/
theorem c4_cache_window_witness :
    urlOf "testtoken" "last" [] = Except.ok urlLast
    ∧ _request netOk 100 stInit "testtoken" "last" []
        = ⟨Except.ok payloadOk, stAfterOk, 1⟩
    ∧ truthy payloadOk = true
    ∧ ((110 : ℚ) - stAfterOk.last_request_timestamp < 30)
    ∧ _request netOk 110 stAfterOk "testtoken" "last" []
        = ⟨Except.ok payloadOk, stAfterOk, 0⟩
    ∧ (30 < (131 : ℚ) - stAfterOk.last_request_timestamp)
    ∧ (_request netOk 131 stAfterOk "testtoken" "last" []).networkCalls = 1 := by
  refine ⟨rfl, rfl, rfl, by norm_num [stAfterOk], ?_, by norm_num [stAfterOk], ?_⟩
  · exact (c4_cache_window netOk 100 110 stInit "testtoken" "last" [] urlLast
      payloadOk stAfterOk 1 rfl rfl rfl).1 (by norm_num [stAfterOk])
  · exact (c4_cache_window netOk 100 131 stInit "testtoken" "last" [] urlLast
      payloadOk stAfterOk 1 rfl rfl rfl).2 (by norm_num [stAfterOk])

/-- C5: when a `_request` reaches the network (no truthy cached response) and
the response carries the conflict status, it raises `ThrottlingError` and the
shared state — response cache and last-request timestamp — is returned
exactly as it was: the error path is atomic. -/
theorem c5_throttling_atomic (net : String → Response) (now : ℚ) (st : ReqState)
    (token action : String) (params : List (String × String)) (url : String)
    (hurl : urlOf token action params = Except.ok url)
    (hmiss : truthy (_get_cached_response_json st now url) = false)
    (hs : (net url).status_code = conflictStatus) :
    _request net now st token action params
      = ⟨Except.error PyErr.throttlingError, st, 1⟩ := by
  unfold _request
  rw [hurl]
  dsimp only
  rw [hmiss]
  simp [hs]

/-- C5 witness: a conflict response at a concrete state and time leaves the
state untouched and raises `ThrottlingError`. -/
theorem c5_throttling_atomic_witness :
    urlOf "testtoken" "last" [] = Except.ok urlLast
    ∧ truthy (_get_cached_response_json stInit 50 urlLast) = false
    ∧ (net409 urlLast).status_code = conflictStatus
    ∧ _request net409 50 stInit "testtoken" "last" []
        = ⟨Except.error PyErr.throttlingError, stInit, 1⟩ :=
  ⟨rfl, rfl, rfl,
    c5_throttling_atomic net409 50 stInit "testtoken" "last" [] urlLast rfl rfl rfl⟩

end Fiobank
